import Mathlib

/-!
# Verification of the event-delivery core of `polling_long_polling_websocket_sse`

A shallow embedding of the delivery engine of the four demo scripts:

* `02_long_polling.py` — a shared message log (`messages`, `message_id`,
  guarded by a lock), a background producer appending to it, and the
  `/poll` handler `long_poll` that busy-polls the log every 0.5 s for
  up to 30 s.
* `03_websocket.py` — a registry `connected_clients` (a Python `set`),
  a `broadcast` coroutine fanning one item out to every registered
  client with `asyncio.gather(..., return_exceptions=True)`, and the
  per-connection handler whose `finally:` block `discard`s the client.
* `04_sse.py` — `generate_events`, a **per-connection** generator with
  its own local `event_id` counter and its own random draws.

Machine integers do not overflow in these scripts (Python ints), so
counters are `Nat`; the query-string cursor `last_id` is parsed with
`int(...)` and may be negative, so cursors are `Int`.
-/

namespace LongPoll

/-- One entry of the shared `messages` list of `02_long_polling.py`
(`background_message_generator`, lines 72–78).  The `text` field of the
Python dict is the string `f"메시지 #{message_id}"`, fully determined by
`id`, so it is not repeated here; `time` is the timestamp taken from the
environment when the message is produced. -/
structure Msg where
  id : Nat
  time : Nat
  deriving Repr, DecidableEq

/-- The server state shared between the producer thread and the `/poll`
handlers: the `message_id` counter and the `messages` list
(`run_server`, lines 62–63). -/
structure LogState where
  message_id : Nat
  messages : List Msg
  deriving Repr, DecidableEq

/-- `messages = []`, `message_id = 0` at server start. -/
def initState : LogState := ⟨0, []⟩

/-- One iteration of `background_message_generator` under the lock
(lines 71–78): increment `message_id`, append a message carrying the new
id and the current timestamp `t`. -/
def appendMsg (st : LogState) (t : Nat) : LogState :=
  let i := st.message_id + 1
  { message_id := i, messages := st.messages ++ [⟨i, t⟩] }

/-- Running the producer once per timestamp in `ts`, from server start. -/
def appendAll (ts : List Nat) : LogState :=
  ts.foldl appendMsg initState

/-- The read performed by the `/poll` handler under the lock
(line 98): `new_messages = [m for m in messages if m['id'] > last_id]`.
A pure filter of the list — the handler never writes `messages`. -/
def readSince (c : Int) (msgs : List Msg) : List Msg :=
  msgs.filter (fun m => c < (m.id : Int))

/-- Outcome of one `/poll` request (lines 103–117): either the
`new_data` response carrying the filtered messages together with the
number of completed 0.5 s sleeps before they were found (the discrete
counterpart of `wait_time`), or the `timeout` response. -/
inductive PollResult where
  | newData (msgs : List Msg) (waits : Nat)
  | timedOut
  deriving Repr, DecidableEq

/-- The wait loop of `long_poll` (lines 96–108), discretised: one unit
of fuel per iteration of `while time.time() - start_time < timeout`
(with `timeout = 30` and a 0.5 s sleep the code performs 60 checks).
`logs k` is the snapshot of `messages` the handler observes at its
`k`-th check under the lock; appends by the producer thread between two
checks show up as the difference between consecutive snapshots.  When
the fuel runs out the handler returns the `timeout` response; `logs
fuel` (never inspected by the loop) is the log state at that moment. -/
def pollLoop (c : Int) (logs : Nat → List Msg) (k : Nat) : Nat → PollResult
  | 0 => .timedOut
  | fuel + 1 =>
    let fresh := readSince c (logs k)
    if fresh.isEmpty then pollLoop c logs (k + 1) fuel else .newData fresh k

/-- The `/poll` handler `long_poll` (lines 85–117): parse the cursor,
then run the wait loop from the first check. -/
def long_poll (c : Int) (logs : Nat → List Msg) (fuel : Nat) : PollResult :=
  pollLoop c logs 0 fuel

end LongPoll

namespace Sse

/-- The four draws of `random.choice(event_types)` in
`04_sse.py` (line 68). -/
inductive EventType where
  | news | stock | notification | update
  deriving Repr, DecidableEq

/-- One event produced by `generate_events` (lines 86–92).  `message`
is `f"{event_type.upper()} 이벤트 #{event_id}"`, determined by `id` and
`type`; `time` comes from the clock; `value` is a random draw when the
type is `stock` and `None` otherwise. -/
structure SseEvent where
  id : Nat
  type : EventType
  time : Nat
  value : Option Nat
  deriving Repr, DecidableEq

/-- The stream of the first `n` events of one SSE connection
(`generate_events`, lines 65–106).  Each connection runs its **own**
generator: `event_id` starts at 0 and is incremented before each event,
so the `k`-th event (from 0) has id `k + 1`; `types`, `times` and
`vals` are that connection's own random/clock draws. -/
def generate_events (types : Nat → EventType) (times : Nat → Nat)
    (vals : Nat → Nat) (n : Nat) : List SseEvent :=
  (List.range n).map fun k =>
    let t := types k
    { id := k + 1
      type := t
      time := times k
      value := if t = EventType.stock then some (vals k) else none }

end Sse

namespace Ws

/-- Outcome of one `client.send(message)` task created by `broadcast`
in `03_websocket.py` (line 123): the send either succeeds or raises
(connection closed/broken); `asyncio.gather(..., return_exceptions=True)`
records the exception instead of propagating it. -/
inductive SendResult where
  | sent | failed
  deriving Repr, DecidableEq

/-- The server state of `03_websocket.py` (`run_server`, lines 63–65):
the registry `connected_clients` (websocket handles modelled as natural
numbers) and the `message_count` dict. -/
structure WsState where
  connected_clients : Finset Nat
  sent : Nat
  received : Nat
  deriving DecidableEq

/-- State effect of `broadcast(data)` (lines 115–125): on an empty
registry it returns at once; otherwise it adds `len(connected_clients)`
to `message_count['sent']` before awaiting the sends.  The Python
coroutine returns `None`: the results collected by `gather` are
discarded, and `broadcast` itself never mutates the registry; in
particular the state effect does not depend on which sends succeed. -/
def broadcast (st : WsState) : WsState :=
  if st.connected_clients = ∅ then st
  else { st with sent := st.sent + st.connected_clients.card }

/-- The send attempts performed during one `broadcast` call: one task
per registered client (line 123), each isolated from the others by
`return_exceptions=True` (line 125).  Python iterates the set in an
arbitrary order and the order across subscribers is unspecified, so
the attempts form a set, one per client; `ok c` tells whether client
`c`'s connection can still receive.  This is the wire-level trace; the
code never reads these results. -/
def broadcastSends (ok : Nat → Bool) (st : WsState) : Finset (Nat × SendResult) :=
  if st.connected_clients = ∅ then ∅
  else st.connected_clients.image fun c =>
    (c, if ok c then SendResult.sent else SendResult.failed)

/-- The registry removal `connected_clients.discard(websocket)` from
`handle_client`'s `finally:` block (line 104).  Python's `set.discard`
removes the element if present and is a silent no-op otherwise. -/
def discard (r : Finset Nat) (i : Nat) : Finset Nat := r.erase i

end Ws

open LongPoll Sse Ws

/-! ## Concrete runs used to exercise the theorems -/

/-- The log after two appends: the example scenario of the spec. -/
def demoLog : List Msg := [⟨1, 0⟩, ⟨2, 1⟩]

/-- A handler run during which the log does not change. -/
def demoLogs : Nat → List Msg := fun _ => demoLog

/-- A run in which the only append becomes visible after the handler's
final check (slot 2 of a 2-check budget): the message lands during the
last 0.5 s sleep, before the timeout response is issued. -/
def lateLogs : Nat → List Msg := fun k => if k < 2 then [] else [⟨1, 9⟩]

/-- A run in which two appends land while the handler sleeps, both
visible from its third check (slot 2) on. -/
def burstLogs : Nat → List Msg := fun k => if k < 2 then [] else [⟨1, 4⟩, ⟨2, 4⟩]

/-- Client 1's connection is broken; every other send succeeds. -/
def okCex : Nat → Bool := fun c => c != 1

/-- A registry holding clients 1 and 2. -/
def stCex : WsState := ⟨{1, 2}, 0, 0⟩

/-- An empty registry with nonzero counters. -/
def stEmpty : WsState := ⟨∅, 5, 3⟩

/-- Random draws of a first SSE connection: every event is `news`. -/
def typesA : Nat → EventType := fun _ => EventType.news

/-- Random draws of a second, concurrent SSE connection: `stock`. -/
def typesB : Nat → EventType := fun _ => EventType.stock

/-- A constant clock/value draw. -/
def zeroF : Nat → Nat := fun _ => 0

/-! ## Helper lemmas -/

/-- Running the producer from an arbitrary state appends exactly the
ids `message_id + 1, message_id + 2, …`, one per iteration. -/
theorem foldl_appendMsg (ts : List Nat) (st : LogState) :
    ((ts.foldl appendMsg st).messages.map Msg.id
        = st.messages.map Msg.id ++ List.range' (st.message_id + 1) ts.length)
    ∧ (ts.foldl appendMsg st).message_id = st.message_id + ts.length := by
  induction ts generalizing st with
  | nil => simp
  | cons t ts ih =>
    have h := ih (appendMsg st t)
    simp only [List.foldl_cons, List.length_cons]
    constructor
    · rw [h.1]
      simp [appendMsg, List.range'_succ]
    · rw [h.2]
      simp [appendMsg]
      omega

/-- Mapping successor over `range n` gives `range' 1 n`. -/
theorem range_map_succ (n : Nat) : (List.range n).map (· + 1) = List.range' 1 n := by
  induction n with
  | zero => simp
  | succ n ih => rw [List.range_succ, List.range'_1_concat]; simp [ih, Nat.add_comm]

/-- The busy-poll loop returns the timeout response exactly when every
check it performed saw no message past the cursor. -/
theorem pollLoop_timedOut_iff (c : Int) (logs : Nat → List Msg) :
    ∀ (fuel k : Nat),
      pollLoop c logs k fuel = .timedOut ↔ ∀ j < fuel, readSince c (logs (k + j)) = [] := by
  intro fuel
  induction fuel with
  | zero => intro k; simp [pollLoop]
  | succ n ih =>
    intro k
    by_cases hk : readSince c (logs k) = []
    · rw [pollLoop, if_pos (List.isEmpty_iff.mpr hk), ih (k + 1)]
      constructor
      · intro h j hj
        match j with
        | 0 => simpa using hk
        | j + 1 =>
          have hr := h j (by omega)
          rw [show k + (j + 1) = k + 1 + j by omega]
          exact hr
      · intro h j hj
        have hr := h (j + 1) (by omega)
        rw [show k + 1 + j = k + (j + 1) by omega]
        exact hr
    · rw [pollLoop, if_neg (by simpa [List.isEmpty_iff] using hk)]
      simp only [reduceCtorEq, false_iff, not_forall]
      exact ⟨0, by omega, by simpa using hk⟩

/-- When the busy-poll loop answers with messages, it answers at the
first check that saw any, and hands back everything that check saw. -/
theorem pollLoop_newData (c : Int) (logs : Nat → List Msg) :
    ∀ (fuel k : Nat) (msgs : List Msg) (w : Nat),
      pollLoop c logs k fuel = .newData msgs w →
        msgs = readSince c (logs w) ∧ msgs ≠ [] ∧ k ≤ w ∧ w < k + fuel
          ∧ ∀ j, k ≤ j → j < w → readSince c (logs j) = [] := by
  intro fuel
  induction fuel with
  | zero => intro k msgs w h; exact absurd h (by simp [pollLoop])
  | succ n ih =>
    intro k msgs w h
    by_cases hk : readSince c (logs k) = []
    · rw [pollLoop, if_pos (List.isEmpty_iff.mpr hk)] at h
      obtain ⟨h1, h2, h3, h4, h5⟩ := ih (k + 1) msgs w h
      refine ⟨h1, h2, by omega, by omega, fun j hj1 hj2 => ?_⟩
      rcases Nat.eq_or_lt_of_le hj1 with rfl | hj1
      · exact hk
      · exact h5 j hj1 hj2
    · rw [pollLoop, if_neg (by simpa [List.isEmpty_iff] using hk)] at h
      cases h
      exact ⟨rfl, hk, Nat.le_refl k, by omega, fun j hj1 hj2 => absurd hj2 (by omega)⟩

/-! ## Claims -/

/-- C1: For every cursor `c`, the `/poll` handler's read of the shared
`messages` list returns exactly the items with sequence greater than
`c`, in ascending sequence order (given the log's sequence order, which
every reachable log has by C2), it is a sublist of the log (it hands
back the stored items themselves, mutating nothing — `readSince` is a
pure function of the log), and it is empty when no such item exists. -/
theorem C1_readSince_correct (c : Int) (log : List Msg)
    (hsorted : List.Sorted (· < ·) (log.map Msg.id)) :
    (∀ m, m ∈ readSince c log ↔ m ∈ log ∧ c < (m.id : Int))
    ∧ List.Sorted (· < ·) ((readSince c log).map Msg.id)
    ∧ (readSince c log).Sublist log
    ∧ ((∀ m ∈ log, (m.id : Int) ≤ c) → readSince c log = []) := by
  refine ⟨fun m => ?_, ?_, List.filter_sublist log, fun h => ?_⟩
  · rw [readSince, List.mem_filter]
    simp
  · exact List.Pairwise.sublist ((List.filter_sublist log).map Msg.id) hsorted
  · rw [readSince, List.filter_eq_nil_iff]
    intro m hm
    simpa using h m hm

/-- Witness for C1 on the spec's example log `[seq 1, seq 2]` with
cursor 1. -/
theorem C1_witness :
    ((⟨2, 1⟩ : Msg) ∈ readSince 1 demoLog
        ↔ (⟨2, 1⟩ : Msg) ∈ demoLog ∧ (1 : Int) < ((⟨2, 1⟩ : Msg).id : Int))
    ∧ List.Sorted (· < ·) ((readSince 1 demoLog).map Msg.id) :=
  ⟨(C1_readSince_correct 1 demoLog (by decide)).1 ⟨2, 1⟩,
   (C1_readSince_correct 1 demoLog (by decide)).2.1⟩

/-- C2: After any run of the producer (`background_message_generator`
incrementing `message_id` and appending, one lock-protected step per
item), the log's sequence numbers are exactly `1, 2, …, n` — strictly
increasing by 1 from 1, no gaps, no duplicates, no reordering — and the
number of stored items equals the number `n` of appends.  Likewise the
`generate_events` stream of `04_sse.py` numbers its events `1, 2, …`. -/
theorem C2_monotonic_log (ts : List Nat) (types : Nat → EventType)
    (times vals : Nat → Nat) (n : Nat) :
    (appendAll ts).messages.map Msg.id = List.range' 1 ts.length
    ∧ (appendAll ts).messages.length = ts.length
    ∧ (appendAll ts).message_id = ts.length
    ∧ (generate_events types times vals n).map SseEvent.id = List.range' 1 n := by
  have h := foldl_appendMsg ts initState
  have hlen : (appendAll ts).messages.length = ts.length := by
    have := congrArg List.length h.1
    simpa [appendAll, initState] using this
  refine ⟨by simpa [appendAll, initState] using h.1, hlen,
    by simpa [appendAll, initState] using h.2, ?_⟩
  rw [generate_events, List.map_map, show (SseEvent.id ∘ fun k =>
    ({ id := k + 1, type := types k, time := times k,
       value := if types k = EventType.stock then some (vals k) else none } : SseEvent))
    = (· + 1) from rfl]
  exact range_map_succ n

/-- C3: If the handler's very first check of the log already finds
messages past the cursor, `long_poll` answers with exactly those
messages after zero sleep steps — none of the timeout budget is
waited out. -/
theorem C3_no_wait_fast_path (c : Int) (logs : Nat → List Msg) (fuel : Nat)
    (hfuel : 0 < fuel) (h : readSince c (logs 0) ≠ []) :
    long_poll c logs fuel = .newData (readSince c (logs 0)) 0 := by
  obtain ⟨n, rfl⟩ : ∃ n, fuel = n + 1 := ⟨fuel - 1, by omega⟩
  rw [long_poll, pollLoop, if_neg (by simpa [List.isEmpty_iff] using h)]

/-- Witness for C3: with both demo messages already in the log, a
60-check budget returns them at once. -/
theorem C3_witness : long_poll 0 demoLogs 60 = .newData (readSince 0 (demoLogs 0)) 0 :=
  C3_no_wait_fast_path 0 demoLogs 60 (by decide) (by decide)

/-- C4 counterexample: the claim "waitForNew never returns timed-out
while a qualifying item is present in the log" fails on the code.
`long_poll` busy-polls: with a 2-check budget whose checks both see an
empty log, a message appended during the final sleep (visible in the
log from slot 2 on — i.e. before the timeout elapses) is never looked
at, and the handler returns the timeout response even though
`readSince` on the log at response time is non-empty. -/
theorem C4_counterexample :
    long_poll 0 lateLogs 2 = .timedOut ∧ readSince 0 (lateLogs 2) ≠ [] := by
  decide

/-- C4 (amended): `long_poll` returns the timed-out result exactly when
every one of the periodic checks it performed during the timeout budget
found no item with sequence greater than the cursor; if a qualifying
item is appended before some check, the call returns items instead.
An item appended after the final check but before the timeout response
is not seen and the call still times out. -/
theorem C4_amended_timeout_iff (c : Int) (logs : Nat → List Msg) (fuel : Nat) :
    long_poll c logs fuel = .timedOut ↔ ∀ k < fuel, readSince c (logs k) = [] := by
  rw [long_poll, pollLoop_timedOut_iff c logs fuel 0]
  simp

/-- C6: Whenever `long_poll` wakes with messages, it hands back the
whole of `readSince` over the log it saw at the wake-up check — every
item with sequence greater than the cursor at wake time, not only the
earliest (and it woke at the first check that saw any). -/
theorem C6_all_items_at_wake (c : Int) (logs : Nat → List Msg) (fuel : Nat)
    (msgs : List Msg) (w : Nat)
    (h : long_poll c logs fuel = .newData msgs w) :
    msgs = readSince c (logs w) ∧ msgs ≠ [] ∧ ∀ j < w, readSince c (logs j) = [] := by
  obtain ⟨h1, h2, _, _, h5⟩ := pollLoop_newData c logs fuel 0 msgs w h
  exact ⟨h1, h2, fun j hj => h5 j (Nat.zero_le j) hj⟩

/-- Witness for C6: two messages land while the handler sleeps through
its first two checks; the wake-up response carries both of them. -/
theorem C6_witness :
    ([⟨1, 4⟩, ⟨2, 4⟩] : List Msg) = readSince 0 (burstLogs 2)
    ∧ ([⟨1, 4⟩, ⟨2, 4⟩] : List Msg) ≠ [] :=
  have h := C6_all_items_at_wake 0 burstLogs 60 [⟨1, 4⟩, ⟨2, 4⟩] 2 (by decide)
  ⟨h.1, h.2.1⟩

/-- C5 counterexample: the claim that a cursor larger than the current
maximum sequence is treated as cursor 0 ("return every item") fails on
the code.  On the example log with max sequence 2, cursor 5 makes the
filter `id > 5` return nothing (while cursor 0 returns the whole log),
and `long_poll` with cursor 5 waits out its whole budget and times out
instead of returning the log. -/
theorem C5_counterexample :
    readSince 5 demoLog = [] ∧ readSince 0 demoLog = demoLog
    ∧ long_poll 5 demoLogs 60 = .timedOut := by
  decide

/-- C5 (amended): a *negative* cursor is indeed equivalent to cursor 0
and returns every item of the log (all sequence numbers are ≥ 1), and
no cursor value makes the read fail; but a cursor at or above the
current maximum sequence returns the empty list — the handler then
keeps waiting for an item with sequence greater than that cursor
rather than re-reading from the start. -/
theorem C5_amended_cursor_handling (c : Int) (log : List Msg)
    (hpos : ∀ m ∈ log, 1 ≤ m.id) :
    (c ≤ 0 → readSince c log = readSince 0 log ∧ readSince c log = log)
    ∧ ((∀ m ∈ log, (m.id : Int) ≤ c) → readSince c log = []) := by
  constructor
  · intro hc
    have hall : readSince c log = log := by
      rw [readSince, List.filter_eq_self]
      intro m hm
      have := hpos m hm
      simp only [decide_eq_true_eq]
      omega
    have hall0 : readSince 0 log = log := by
      rw [readSince, List.filter_eq_self]
      intro m hm
      have := hpos m hm
      simp only [decide_eq_true_eq]
      omega
    exact ⟨by rw [hall, hall0], hall⟩
  · intro h
    rw [readSince, List.filter_eq_nil_iff]
    intro m hm
    simpa using h m hm

/-- Witness for C5 (amended) on the example log: cursor −3 reads the
same as cursor 0, cursor 7 (above the maximum, 2) reads nothing. -/
theorem C5_witness :
    readSince (-3) demoLog = readSince 0 demoLog ∧ readSince 7 demoLog = [] :=
  ⟨((C5_amended_cursor_handling (-3) demoLog (by decide)).1 (by decide)).1,
   (C5_amended_cursor_handling 7 demoLog (by decide)).2 (by decide)⟩

/-- C7 counterexample: the claim that a subscriber whose send fails "is
reported back to the caller and removed from subsequent broadcasts"
fails on the code.  `broadcast` discards the results collected by
`asyncio.gather` and never touches `connected_clients`: after a
broadcast in which client 1's send fails (client 2's succeeds), client
1 is still registered and the next broadcast attempts — and fails —
its send again.  (Removal happens only in `handle_client`'s `finally:`
block, when that client's own receive loop ends.) -/
theorem C7_counterexample :
    (1, SendResult.failed) ∈ broadcastSends okCex stCex
    ∧ (2, SendResult.sent) ∈ broadcastSends okCex stCex
    ∧ 1 ∈ (broadcast stCex).connected_clients
    ∧ (1, SendResult.failed) ∈ broadcastSends okCex (broadcast stCex) := by
  decide

/-- C7 (amended): `broadcast` attempts one isolated send per subscriber
of the call-time snapshot — a failing send aborts neither the other
sends nor the broadcast call itself (`gather` with
`return_exceptions=True` swallows the exception) — but the per-send
results are discarded, not reported to the caller, and the registry is
left unchanged: a failed subscriber is removed only later, by its own
connection handler's cleanup, not as a consequence of the broadcast. -/
theorem C7_amended_broadcast_isolation (ok : Nat → Bool) (st : WsState) (c : Nat)
    (h : c ∈ st.connected_clients) :
    (c, if ok c then SendResult.sent else SendResult.failed) ∈ broadcastSends ok st
    ∧ (broadcast st).connected_clients = st.connected_clients := by
  have hne : st.connected_clients ≠ ∅ := Finset.ne_empty_of_mem h
  constructor
  · rw [broadcastSends, if_neg hne]
    exact Finset.mem_image.mpr ⟨c, h, rfl⟩
  · rw [broadcast, if_neg hne]

/-- Witness for C7 (amended): in the two-client registry where client
1's connection is broken, client 2 still receives the broadcast and the
registry is untouched. -/
theorem C7_witness :
    ((2, if okCex 2 then SendResult.sent else SendResult.failed)
        ∈ broadcastSends okCex stCex)
    ∧ (broadcast stCex).connected_clients = stCex.connected_clients :=
  C7_amended_broadcast_isolation okCex stCex 2 (by decide)

/-- C8: Unregistering (`set.discard` in `handle_client`'s cleanup) is
idempotent: discarding the same id twice equals discarding it once,
discarding an id that is not registered changes nothing (and, being a
total function, raises no error), and the registry size drops by
exactly one for a registered id and by zero otherwise. -/
theorem C8_idempotent_unregister (r : Finset Nat) (i : Nat) :
    Ws.discard (Ws.discard r i) i = Ws.discard r i
    ∧ (Ws.discard r i = r ↔ i ∉ r)
    ∧ (Ws.discard r i).card = if i ∈ r then r.card - 1 else r.card := by
  refine ⟨Finset.erase_idem, Finset.erase_eq_self, ?_⟩
  by_cases h : i ∈ r
  · rw [if_pos h]
    exact Finset.card_erase_of_mem h
  · rw [if_neg h, Ws.discard, Finset.erase_eq_of_not_mem h]

/-- C9 counterexample: the claim that two concurrently connected
consumers observe items drawn from one common sequence fails on the
SSE script.  `generate_events` runs once *per connection*, with its own
`event_id` counter and its own random draws: two connections whose
draws differ produce, under the very same sequence number 1, different
items — independent per-connection sequences, stored in no shared log. -/
theorem C9_counterexample :
    (generate_events typesA zeroF zeroF 1).map SseEvent.id
      = (generate_events typesB zeroF zeroF 1).map SseEvent.id
    ∧ generate_events typesA zeroF zeroF 1 ≠ generate_events typesB zeroF zeroF 1 := by
  decide

/-- C9 (amended): in the long-polling server the property does hold:
everything a pull consumer is handed comes from the single shared
`messages` list, and two consumers reading at any two cursors draw
from one common sequence — items with equal sequence numbers are the
same item (sequence numbers are unique in any reachable log by C2).
The SSE server, by contrast, keeps no shared log: each connection's
stream is generated independently (see the counterexample). -/
theorem C9_amended_shared_log (c1 c2 : Int) (log : List Msg) (m1 m2 : Msg)
    (hnodup : (log.map Msg.id).Nodup)
    (h1 : m1 ∈ readSince c1 log) (h2 : m2 ∈ readSince c2 log)
    (hid : m1.id = m2.id) :
    m1 ∈ log ∧ m2 ∈ log ∧ m1 = m2 := by
  have hm1 : m1 ∈ log := (List.mem_filter.mp h1).1
  have hm2 : m2 ∈ log := (List.mem_filter.mp h2).1
  exact ⟨hm1, hm2, List.inj_on_of_nodup_map hnodup hm1 hm2 hid⟩

/-- Witness for C9 (amended): two long-poll consumers at cursors 0 and
1 both receive the item with sequence 2, and it is the same item. -/
theorem C9_witness :
    (⟨2, 1⟩ : Msg) ∈ demoLog ∧ (⟨2, 1⟩ : Msg) ∈ demoLog
    ∧ (⟨2, 1⟩ : Msg) = (⟨2, 1⟩ : Msg) :=
  C9_amended_shared_log 0 1 demoLog ⟨2, 1⟩ ⟨2, 1⟩ (by decide) (by decide) (by decide) rfl

/-- C10: `broadcast` on an empty registry is a complete no-op: it
returns before touching `message_count['sent']` (which is incremented —
by the registry size — only on the non-empty path) and no send task is
created. -/
theorem C10_empty_broadcast (ok : Nat → Bool) (st : WsState)
    (h : st.connected_clients = ∅) :
    broadcast st = st ∧ broadcastSends ok st = ∅ := by
  rw [broadcast, broadcastSends, if_pos h, if_pos h]
  exact ⟨rfl, rfl⟩

/-- Witness for C10: broadcasting to an empty registry with nonzero
counters changes nothing and sends nothing. -/
theorem C10_witness :
    broadcast stEmpty = stEmpty ∧ broadcastSends okCex stEmpty = ∅ :=
  C10_empty_broadcast okCex stEmpty rfl
